import Mathlib

/-
Verification of the testax harness (src/src/lib.rs): a shallow embedding of the
request-dispatch and response-capture machinery (get, post_json, call_service_res)
together with models of the external collaborators they are built on (the actix
service abstraction, the TestRequest builder, the body reader and the lossy UTF-8
decoder of the standard library).

Modelling choices:
  * A service is a stateful step function on an abstract handle state; calling it
    returns the service's outcome (response or error) and the updated handle state.
  * Response bodies are fully materialized byte sequences (List Nat, each < 256).
  * The delivered requests of a dispatch are recorded explicitly, so that the
    one-request-per-call frame property is expressible.
  * A panic/abort of the Rust code is modelled as Option.none at the harness
    function boundary; a function whose embedding never returns none never aborts.
-/

set_option autoImplicit false

namespace Testax

/-- HTTP method of a test request: the harness only builds GET and POST. -/
inductive Method where
  | get
  | post
  deriving DecidableEq

/-- The opaque request value handed to the service: method, target path, body
bytes and whether the JSON content-type marking was set. -/
structure Request where
  method : Method
  uri : String
  body : List Nat
  contentTypeJson : Bool
  deriving DecidableEq

/-- Response from the service under test: status code and body as a fully
materialized byte sequence (the stream is drained by the body reader). -/
structure Response where
  status : Nat
  body : List Nat
  deriving DecidableEq

/-- RespBody from src/src/lib.rs: status code plus fully materialized text body. -/
structure RespBody where
  status : Nat
  body : String
  deriving DecidableEq

/-- DispatchError: the anyhow error value returned by the harness, carrying a
human-readable cause. -/
structure DispatchError where
  msg : String
  deriving DecidableEq

/-- The actix service abstraction (actix_service::Service with Request =
actix_http::Request, Response = ServiceResponse): a stateful call primitive that
takes the handle state and a request and yields the service's own outcome
(response, or the service's error value) together with the updated handle state. -/
structure Service (σ E : Type) where
  call : σ → Request → Except E Response × σ

/-- Model of actix test::read_body: fully drains the response body stream and
yields the raw bytes. -/
def read_body (resp : Response) : List Nat :=
  resp.body

/-- Decode the UTF-8 sequence at the head of a byte list (lead byte b, following
bytes rest): either the decoded scalar value, or none for an invalid maximal
subpart, together with the number of bytes consumed (always at least 1).
Follows the WHATWG / Rust core::str validation ranges, including the restricted
ranges of the first continuation byte after E0, ED, F0 and F4. -/
def utf8Step (b : Nat) (rest : List Nat) : Option Nat × Nat :=
  if b < 0x80 then (some b, 1)
  else if b < 0xC2 then (none, 1)
  else if b ≤ 0xDF then
    match rest with
    | b1 :: _ =>
      if 0x80 ≤ b1 ∧ b1 ≤ 0xBF then (some ((b - 0xC0) * 64 + (b1 - 0x80)), 2)
      else (none, 1)
    | [] => (none, 1)
  else if b ≤ 0xEF then
    let lo1 := if b = 0xE0 then 0xA0 else 0x80
    let hi1 := if b = 0xED then 0x9F else 0xBF
    match rest with
    | b1 :: rest1 =>
      if lo1 ≤ b1 ∧ b1 ≤ hi1 then
        match rest1 with
        | b2 :: _ =>
          if 0x80 ≤ b2 ∧ b2 ≤ 0xBF then
            (some ((b - 0xE0) * 4096 + (b1 - 0x80) * 64 + (b2 - 0x80)), 3)
          else (none, 2)
        | [] => (none, 2)
      else (none, 1)
    | [] => (none, 1)
  else if b ≤ 0xF4 then
    let lo1 := if b = 0xF0 then 0x90 else 0x80
    let hi1 := if b = 0xF4 then 0x8F else 0xBF
    match rest with
    | b1 :: rest1 =>
      if lo1 ≤ b1 ∧ b1 ≤ hi1 then
        match rest1 with
        | b2 :: rest2 =>
          if 0x80 ≤ b2 ∧ b2 ≤ 0xBF then
            match rest2 with
            | b3 :: _ =>
              if 0x80 ≤ b3 ∧ b3 ≤ 0xBF then
                (some ((b - 0xF0) * 262144 + (b1 - 0x80) * 4096
                  + (b2 - 0x80) * 64 + (b3 - 0x80)), 4)
              else (none, 3)
            | [] => (none, 3)
          else (none, 2)
        | [] => (none, 2)
      else (none, 1)
    | [] => (none, 1)
  else (none, 1)

/-- Loop of the lossy UTF-8 decoder: each step consumes at least one byte, so a
fuel equal to the list length always suffices. Invalid maximal subparts are
replaced by U+FFFD. -/
def utf8LossyLoop : Nat → List Nat → String → String
  | _, [], acc => acc
  | 0, _ :: _, acc => acc
  | fuel + 1, b :: rest, acc =>
    match utf8Step b rest with
    | (some cp, n) => utf8LossyLoop fuel (rest.drop (n - 1)) (acc.push (Char.ofNat cp))
    | (none, n) => utf8LossyLoop fuel (rest.drop (n - 1)) (acc.push (Char.ofNat 0xFFFD))

/-- Model of String::from_utf8_lossy followed by to_string: decodes the byte
sequence as UTF-8, replacing invalid sequences with U+FFFD; it is total, so the
decode never fails. -/
def fromUtf8Lossy (bytes : List Nat) : String :=
  utf8LossyLoop bytes.length bytes ""

/-- UTF-8 encoding of one character (used to model handler outputs and the JSON
serializer output in concrete witnesses). -/
def utf8EncodeChar (c : Char) : List Nat :=
  let n := c.toNat
  if n < 0x80 then [n]
  else if n < 0x800 then [0xC0 + n / 64, 0x80 + n % 64]
  else if n < 0x10000 then [0xE0 + n / 4096, 0x80 + (n / 64) % 64, 0x80 + n % 64]
  else [0xF0 + n / 262144, 0x80 + (n / 4096) % 64, 0x80 + (n / 64) % 64, 0x80 + n % 64]

/-- UTF-8 encoding of a string as a byte list. -/
def utf8Encode (s : String) : List Nat :=
  (s.data.map utf8EncodeChar).flatten

/-- Model of actix test::TestRequest (the request builder): the fields the
harness sets before calling to_request. -/
structure TestRequest where
  method : Method
  uri : String
  body : List Nat
  contentTypeJson : Bool
  deriving DecidableEq

/-- Model of TestRequest::get(): a fresh GET builder. -/
def TestRequest.get : TestRequest :=
  ⟨Method.get, "/", [], false⟩

/-- Model of TestRequest::post(): a fresh POST builder. -/
def TestRequest.post : TestRequest :=
  ⟨Method.post, "/", [], false⟩

/-- Model of TestRequest::uri: sets the target path of the builder. (Named
setUri here because uri is already the field's name.) -/
def TestRequest.setUri (r : TestRequest) (u : String) : TestRequest :=
  ⟨r.method, u, r.body, r.contentTypeJson⟩

/-- Model of TestRequest::to_request: freezes the builder into the request value
consumed by the service. -/
def TestRequest.to_request (r : TestRequest) : Request :=
  ⟨r.method, r.uri, r.body, r.contentTypeJson⟩

/-- Model of the external actix-web test::TestRequest::set_json used by
post_json (src/src/lib.rs line 88): it serializes the payload with the
collaborator serializer (serde_json::to_string) and unwraps the result with
expect, so a serialization failure panics in the builder — modelled as none —
while a successful serialization places exactly the serializer's output bytes
in the request body and sets the JSON content-type marking. -/
def TestRequest.set_json {α : Type} (r : TestRequest)
    (ser : α → Except String (List Nat)) (payload : α) : Option TestRequest :=
  match ser payload with
  | Except.ok bytes => some ⟨r.method, r.uri, bytes, true⟩
  | Except.error _ => none

/-- Outcome of one harness dispatch: the returned result, the handle state after
the call, and the requests that were delivered to the service during the call. -/
structure Dispatched (σ : Type) where
  result : Except DispatchError RespBody
  state : σ
  delivered : List Request

/-- call_service_res from src/src/lib.rs lines 134-140: calls the service and
waits for completion, returning the service's own outcome unchanged. -/
def call_service_res {σ E : Type} (app : Service σ E) (s : σ) (req : Request) :
    Except E Response × σ :=
  app.call s req

/-- get from src/src/lib.rs lines 30-49: builds a GET request for the path,
dispatches it through call_service_res, and either wraps the service error into
an anyhow DispatchError (rendered with the Debug formatter dbg) or reads the
body, decodes it lossily and returns a RespBody with the response status. -/
def get {σ E : Type} (app : Service σ E) (dbg : E → String) (s : σ) (url : String) :
    Dispatched σ :=
  let req := (TestRequest.get.setUri url).to_request
  match call_service_res app s req with
  | (Except.error err, s') =>
    ⟨Except.error ⟨"call_service_res failed: " ++ dbg err⟩, s', [req]⟩
  | (Except.ok resp, s') =>
    let status := resp.status
    let body := read_body resp
    let body := fromUtf8Lossy body
    ⟨Except.ok ⟨status, body⟩, s', [req]⟩

/-- post_json from src/src/lib.rs lines 80-103: builds a POST request carrying
the JSON-serialized payload (through set_json, which aborts on serialization
failure — hence the Option), dispatches it through call_service_res, and wraps
the outcome exactly as get does. -/
def post_json {σ E α : Type} (app : Service σ E) (dbg : E → String)
    (ser : α → Except String (List Nat)) (s : σ) (json : α) (url : String) :
    Option (Dispatched σ) :=
  match TestRequest.post.set_json ser json with
  | none => none
  | some b =>
    let req := (b.setUri url).to_request
    some (match call_service_res app s req with
    | (Except.error err, s') =>
      ⟨Except.error ⟨"call_service_res failed: " ++ dbg err⟩, s', [req]⟩
    | (Except.ok resp, s') =>
      let status := resp.status
      let body := read_body resp
      let body := fromUtf8Lossy body
      ⟨Except.ok ⟨status, body⟩, s', [req]⟩)

/-- The GET request that the get builder chain produces for a path. -/
def getRequest (url : String) : Request :=
  ⟨Method.get, url, [], false⟩

/-- The POST request that the post_json builder chain produces for a path and
serialized body bytes. -/
def postRequest (bytes : List Nat) (url : String) : Request :=
  ⟨Method.post, url, bytes, true⟩

instance instDecEqExcept {ε α : Type} [DecidableEq ε] [DecidableEq α] :
    DecidableEq (Except ε α) := fun a b =>
  match a, b with
  | Except.ok x, Except.ok y =>
    if h : x = y then isTrue (by rw [h]) else isFalse (fun hc => by cases hc; exact h rfl)
  | Except.error x, Except.error y =>
    if h : x = y then isTrue (by rw [h]) else isFalse (fun hc => by cases hc; exact h rfl)
  | Except.ok _, Except.error _ => isFalse (fun hc => by cases hc)
  | Except.error _, Except.ok _ => isFalse (fun hc => by cases hc)

/-- Unfolding of get: it dispatches exactly the built GET request and wraps the
service's outcome. -/
theorem get_eq {σ E : Type} (app : Service σ E) (dbg : E → String) (s : σ) (url : String) :
    get app dbg s url =
      match app.call s (getRequest url) with
      | (Except.error err, s') =>
        ⟨Except.error ⟨"call_service_res failed: " ++ dbg err⟩, s', [getRequest url]⟩
      | (Except.ok resp, s') =>
        ⟨Except.ok ⟨resp.status, fromUtf8Lossy (read_body resp)⟩, s', [getRequest url]⟩ := rfl

/-- Unfolding of post_json when serialization succeeds: it dispatches exactly
the built POST request and wraps the service's outcome. -/
theorem post_json_eq_ok {σ E α : Type} (app : Service σ E) (dbg : E → String)
    (ser : α → Except String (List Nat)) (s : σ) (payload : α) (url : String)
    (bytes : List Nat) (h : ser payload = Except.ok bytes) :
    post_json app dbg ser s payload url =
      some (match app.call s (postRequest bytes url) with
      | (Except.error err, s') =>
        ⟨Except.error ⟨"call_service_res failed: " ++ dbg err⟩, s', [postRequest bytes url]⟩
      | (Except.ok resp, s') =>
        ⟨Except.ok ⟨resp.status, fromUtf8Lossy (read_body resp)⟩, s', [postRequest bytes url]⟩) := by
  unfold post_json TestRequest.set_json
  rw [h]
  exact rfl

/-- Unfolding of post_json when serialization fails: the builder aborts. -/
theorem post_json_eq_err {σ E α : Type} (app : Service σ E) (dbg : E → String)
    (ser : α → Except String (List Nat)) (s : σ) (payload : α) (url : String)
    (e : String) (h : ser payload = Except.error e) :
    post_json app dbg ser s payload url = none := by
  unfold post_json TestRequest.set_json
  rw [h]

/-- Debug formatter for String-valued service errors, used in witnesses. -/
def dbgStr : String → String := fun e => e

/-- Serializer used in witnesses: the UTF-8 bytes of the string payload. -/
def serStr : String → Except String (List Nat) := fun u => Except.ok (utf8Encode u)

/-- A serializer that fails, as serde_json does on a map with non-string keys. -/
def serFail : Unit → Except String (List Nat) :=
  fun _ => Except.error "key must be a string"

/-- A stateless handler that answers every request with status 200 and body
bytes of "ok"; used as a completing service in concrete witnesses. -/
def okHandler : Request → Except String Response :=
  fun _ => Except.ok ⟨200, utf8Encode "ok"⟩

/-- The stateless service induced by okHandler. -/
def okApp : Service Unit String := ⟨fun s req => (okHandler req, s)⟩

/-- A stateless handler whose call primitive itself fails (transport error). -/
def failHandler : Request → Except String Response :=
  fun _ => Except.error "connection reset"

/-- The stateless service induced by failHandler. -/
def failApp : Service Unit String := ⟨fun s req => (failHandler req, s)⟩

/-- Splits a character list on the slash separator (used to model the router's
path matching on segment patterns). -/
def splitOnSlash : List Char → List (List Char)
  | [] => [[]]
  | c :: rest =>
    let r := splitOnSlash rest
    if c = '/' then [] :: r
    else
      match r with
      | [] => [[c]]
      | seg :: segs => (c :: seg) :: segs

/-- The segments of a request path: everything after the leading slash, split
on slashes. -/
def pathSegments (uri : String) : List String :=
  ((splitOnSlash uri.data).map (fun seg => String.mk seg)).drop 1

/-- The numeric value of a decimal digit character, if it is one. -/
def digitVal (c : Char) : Option Nat :=
  if '0' ≤ c ∧ c ≤ '9' then some (c.toNat - 48) else none

/-- Accumulating decimal parser over a character list; none on any non-digit. -/
def parseNatAux : List Char → Nat → Option Nat
  | [], acc => some acc
  | c :: rest, acc =>
    match digitVal c with
    | some d => parseNatAux rest (acc * 10 + d)
    | none => none

/-- Parses a nonempty all-digit string as a natural number (models the router's
extraction of a numeric path parameter). -/
def parseNat : List Char → Option Nat
  | [] => none
  | c :: rest => parseNatAux (c :: rest) 0

/-- Modelled from the spec: the service under test registered in the
repository's tests — an actix App with the index route on the two-segment path
pattern (a u32 id and a name). The router is an external collaborator whose
code is not part of this repository; per the spec's scenarios 1 and 2 it
answers a matching GET with status 200 and the greeting body, and any
unmatched path with status 404 and an empty body. -/
def indexHandler : Request → Except String Response :=
  fun req =>
    match pathSegments req.uri with
    | [idStr, name] =>
      if req.method = Method.get then
        match parseNat idStr.data with
        | some id =>
          if id < 4294967296 then
            Except.ok ⟨200, utf8Encode ("Hello " ++ name ++ "! id:" ++ toString id)⟩
          else Except.ok ⟨404, []⟩
        | none => Except.ok ⟨404, []⟩
      else Except.ok ⟨404, []⟩
    | _ => Except.ok ⟨404, []⟩

/-- The stateless service induced by indexHandler. -/
def indexApp : Service Unit String := ⟨fun s req => (indexHandler req, s)⟩

/-- Claim C3: call_service_res returns exactly the service's own outcome
unchanged — the response value when the call completes and the service's own
error value when it fails — and in particular never maps a non-2xx status to
the error branch; being a total function into a plain result pair, it never
aborts the caller. -/
theorem call_service_res_transparent {σ E : Type} (app : Service σ E) (s : σ)
    (req : Request) :
    call_service_res app s req = app.call s req ∧
    (match (app.call s req).1 with
     | Except.ok resp => (call_service_res app s req).1 = Except.ok resp
     | Except.error e => (call_service_res app s req).1 = Except.error e) := by
  refine ⟨rfl, ?_⟩
  cases h : (app.call s req).1 <;> simp [call_service_res, h]

/-- Claim C6: for a path with no matching route — the router, per the spec,
answers such a request with status 404 and an empty body — get returns a
successful RespBody with status 404 and body "", not a DispatchError. -/
theorem get_unmatched_route_404 {σ E : Type} (app : Service σ E) (dbg : E → String)
    (s : σ) (url : String)
    (h : (app.call s (getRequest url)).1 = Except.ok ⟨404, []⟩) :
    (get app dbg s url).result = Except.ok ⟨404, ""⟩ := by
  rw [get_eq]
  rcases hc : app.call s (getRequest url) with ⟨r, s'⟩
  rw [hc] at h
  have h' : r = Except.ok ⟨404, []⟩ := h
  subst h'
  rfl

/-- Witness for C6 at the spec's scenario 2: the modelled test app with the
index route, queried at the unmatched path of the test test_get_fail. -/
theorem get_unmatched_route_404_witness :
    (indexApp.call () (getRequest "/32/Filip/Not")).1 = Except.ok ⟨404, []⟩ ∧
    (get indexApp dbgStr () "/32/Filip/Not").result = Except.ok ⟨404, ""⟩ :=
  ⟨by decide, get_unmatched_route_404 indexApp dbgStr () "/32/Filip/Not" (by decide)⟩

/-- Claim C1: whenever the service completes with a response of any HTTP status
(2xx, 4xx and 5xx alike), get and post_json return Ok with a RespBody carrying
that status; they return a DispatchError exactly when the service's own call
primitive fails; and, given a successful serialization, post_json never aborts
the calling process (get is a total function and cannot abort at all). -/
theorem dispatch_ok_iff_call_completes {σ E α : Type} (app : Service σ E)
    (dbg : E → String) (ser : α → Except String (List Nat)) (payload : α)
    (bytes : List Nat) (s t : σ) (gurl purl : String)
    (hser : ser payload = Except.ok bytes) :
    (∀ resp, (app.call s (getRequest gurl)).1 = Except.ok resp →
      (get app dbg s gurl).result = Except.ok ⟨resp.status, fromUtf8Lossy (read_body resp)⟩) ∧
    ((∃ de, (get app dbg s gurl).result = Except.error de) ↔
      (∃ err, (app.call s (getRequest gurl)).1 = Except.error err)) ∧
    (∀ resp, (app.call t (postRequest bytes purl)).1 = Except.ok resp →
      ∃ d, post_json app dbg ser t payload purl = some d ∧
        d.result = Except.ok ⟨resp.status, fromUtf8Lossy (read_body resp)⟩) ∧
    ((∃ d, ∃ de, post_json app dbg ser t payload purl = some d ∧
        d.result = Except.error de) ↔
      (∃ err, (app.call t (postRequest bytes purl)).1 = Except.error err)) ∧
    post_json app dbg ser t payload purl ≠ none := by
  have hpe := post_json_eq_ok app dbg ser t payload purl bytes hser
  rw [get_eq, hpe]
  rcases hg : app.call s (getRequest gurl) with ⟨rg, sg⟩
  rcases hp : app.call t (postRequest bytes purl) with ⟨rp, sp⟩
  cases rg <;> cases rp <;> simp

/-- Witness for C1: the completing okApp service answers with status 200 and
body "ok", and get reports it as Ok. -/
theorem dispatch_ok_iff_call_completes_witness :
    serStr "Filip" = Except.ok (utf8Encode "Filip") ∧
    (get okApp dbgStr () "/x").result = Except.ok ⟨200, "ok"⟩ := by
  refine ⟨rfl, ?_⟩
  have h := (dispatch_ok_iff_call_completes okApp dbgStr serStr "Filip"
    (utf8Encode "Filip") () () "/x" "/api/users" rfl).1 ⟨200, utf8Encode "ok"⟩ rfl
  exact h.trans (by decide)

/-- Claim C4: every RespBody returned by get or post_json has a body equal to
the lossy UTF-8 decoding of the fully drained response body bytes (the decoder
is a total function, so decoding never fails), and an empty response body
yields body = "", never an absent value. -/
theorem respbody_lossy_decode {σ E α : Type} (app : Service σ E) (dbg : E → String)
    (ser : α → Except String (List Nat)) (payload : α) (bytes : List Nat)
    (s t : σ) (gurl purl : String) (hser : ser payload = Except.ok bytes) :
    (∀ resp rb, (app.call s (getRequest gurl)).1 = Except.ok resp →
      (get app dbg s gurl).result = Except.ok rb →
      rb.body = fromUtf8Lossy (read_body resp) ∧ (read_body resp = [] → rb.body = "")) ∧
    (∀ resp rb d, (app.call t (postRequest bytes purl)).1 = Except.ok resp →
      post_json app dbg ser t payload purl = some d → d.result = Except.ok rb →
      rb.body = fromUtf8Lossy (read_body resp) ∧ (read_body resp = [] → rb.body = "")) := by
  have hpe := post_json_eq_ok app dbg ser t payload purl bytes hser
  rw [get_eq, hpe]
  rcases hg : app.call s (getRequest gurl) with ⟨rg, sg⟩
  rcases hp : app.call t (postRequest bytes purl) with ⟨rp, sp⟩
  constructor
  · intro resp rb h1 h2
    cases rg with
    | error e => simp at h2
    | ok a =>
      have ha : a = resp := by simpa using h1
      cases ha
      have hb : (⟨resp.status, fromUtf8Lossy (read_body resp)⟩ : RespBody) = rb := by
        simpa using h2
      subst hb
      exact ⟨rfl, fun h4 => by rw [show read_body resp = [] from h4]; exact rfl⟩
  · intro resp rb d h1 h2 h3
    cases rp with
    | error e =>
      have hd : (⟨Except.error ⟨"call_service_res failed: " ++ dbg e⟩, sp,
          [postRequest bytes purl]⟩ : Dispatched σ) = d := by simpa using h2
      subst hd
      simp at h3
    | ok a =>
      have ha : a = resp := by simpa using h1
      cases ha
      have hd : (⟨Except.ok ⟨resp.status, fromUtf8Lossy (read_body resp)⟩, sp,
          [postRequest bytes purl]⟩ : Dispatched σ) = d := by simpa using h2
      subst hd
      have hb : (⟨resp.status, fromUtf8Lossy (read_body resp)⟩ : RespBody) = rb := by
        simpa using h3
      subst hb
      exact ⟨rfl, fun h4 => by rw [show read_body resp = [] from h4]; exact rfl⟩

/-- Witness for C4: against okApp the returned body "ok" is exactly the lossy
decoding of the drained response bytes. -/
theorem respbody_lossy_decode_witness :
    serStr "Filip" = Except.ok (utf8Encode "Filip") ∧
    (RespBody.mk 200 "ok").body = fromUtf8Lossy (read_body ⟨200, utf8Encode "ok"⟩) :=
  ⟨rfl, ((respbody_lossy_decode okApp dbgStr serStr "Filip" (utf8Encode "Filip")
      () () "/x" "/api/users" rfl).1 ⟨200, utf8Encode "ok"⟩ ⟨200, "ok"⟩
      (by decide) (by decide)).1⟩

/-- Claim C5: the bytes placed in the body of the POST request that post_json
delivers are exactly the serializer's direct JSON output on the payload; the
request construction mutates nothing. -/
theorem post_body_eq_serializer_output {σ E α : Type} (app : Service σ E)
    (dbg : E → String) (ser : α → Except String (List Nat)) (s : σ) (payload : α)
    (url : String) (bytes : List Nat) (hser : ser payload = Except.ok bytes) :
    ∃ d, post_json app dbg ser s payload url = some d ∧
      d.delivered.map Request.body = [bytes] := by
  have hpe := post_json_eq_ok app dbg ser s payload url bytes hser
  rcases hp : app.call s (postRequest bytes url) with ⟨rp, sp⟩
  rw [hp] at hpe
  cases rp <;> exact ⟨_, hpe, by simp [postRequest]⟩

/-- Witness for C5 at the concrete string serializer and payload "Filip". -/
theorem post_body_eq_serializer_output_witness :
    serStr "Filip" = Except.ok (utf8Encode "Filip") ∧
    (∃ d, post_json okApp dbgStr serStr () "Filip" "/api/users" = some d ∧
      d.delivered.map Request.body = [utf8Encode "Filip"]) :=
  ⟨rfl, post_body_eq_serializer_output okApp dbgStr serStr () "Filip" "/api/users"
    (utf8Encode "Filip") rfl⟩

/-- Claim C8: a single call of get or post_json delivers exactly one request to
the service — one invocation of the call primitive, with no retry on either a
successful or a failed outcome (the service outcome is arbitrary here). -/
theorem dispatch_single_delivery {σ E α : Type} (app : Service σ E)
    (dbg : E → String) (ser : α → Except String (List Nat)) (payload : α)
    (bytes : List Nat) (s t : σ) (gurl purl : String)
    (hser : ser payload = Except.ok bytes) :
    (get app dbg s gurl).delivered = [getRequest gurl] ∧
    (get app dbg s gurl).delivered.length = 1 ∧
    (∃ d, post_json app dbg ser t payload purl = some d ∧
      d.delivered = [postRequest bytes purl] ∧ d.delivered.length = 1) := by
  have hpe := post_json_eq_ok app dbg ser t payload purl bytes hser
  rw [get_eq, hpe]
  rcases hg : app.call s (getRequest gurl) with ⟨rg, sg⟩
  rcases hp : app.call t (postRequest bytes purl) with ⟨rp, sp⟩
  cases rg <;> cases rp <;> simp

/-- Witness for C8: one GET dispatch against okApp delivers exactly the single
built GET request. -/
theorem dispatch_single_delivery_witness :
    serStr "Filip" = Except.ok (utf8Encode "Filip") ∧
    (get okApp dbgStr () "/x").delivered = [getRequest "/x"] :=
  ⟨rfl, (dispatch_single_delivery okApp dbgStr serStr "Filip" (utf8Encode "Filip")
    () () "/x" "/api/users" rfl).1⟩

/-- Claim C9: the request post_json delivers is a POST request whose target is
exactly the given path, whose body is the JSON-serialized payload, and which
carries the JSON content-type marking. -/
theorem post_request_shape {σ E α : Type} (app : Service σ E)
    (dbg : E → String) (ser : α → Except String (List Nat)) (s : σ) (payload : α)
    (url : String) (bytes : List Nat) (hser : ser payload = Except.ok bytes) :
    ∃ d, post_json app dbg ser s payload url = some d ∧
      d.delivered = [postRequest bytes url] ∧
      (postRequest bytes url).method = Method.post ∧
      (postRequest bytes url).uri = url ∧
      (postRequest bytes url).body = bytes ∧
      (postRequest bytes url).contentTypeJson = true := by
  have hpe := post_json_eq_ok app dbg ser s payload url bytes hser
  rcases hp : app.call s (postRequest bytes url) with ⟨rp, sp⟩
  rw [hp] at hpe
  cases rp <;> exact ⟨_, hpe, by simp [postRequest]⟩

/-- Witness for C9 at the concrete string serializer and payload "Filip". -/
theorem post_request_shape_witness :
    serStr "Filip" = Except.ok (utf8Encode "Filip") ∧
    (∃ d, post_json okApp dbgStr serStr () "Filip" "/api/users" = some d ∧
      d.delivered = [postRequest (utf8Encode "Filip") "/api/users"] ∧
      (postRequest (utf8Encode "Filip") "/api/users").method = Method.post ∧
      (postRequest (utf8Encode "Filip") "/api/users").uri = "/api/users" ∧
      (postRequest (utf8Encode "Filip") "/api/users").body = utf8Encode "Filip" ∧
      (postRequest (utf8Encode "Filip") "/api/users").contentTypeJson = true) :=
  ⟨rfl, post_request_shape okApp dbgStr serStr () "Filip" "/api/users"
    (utf8Encode "Filip") rfl⟩

/-- Claim C2 (amended): for every payload whose JSON serialization fails,
post_json never sends any request to the service (the abort happens during
request construction, for any service whatsoever) — but instead of returning an
Err value to the caller, the request builder unwraps the serialization result
and aborts the calling process (modelled as none). -/
theorem post_json_ser_failure_aborts {σ E α : Type} (app : Service σ E)
    (dbg : E → String) (ser : α → Except String (List Nat)) (s : σ) (payload : α)
    (url : String) (e : String) (hser : ser payload = Except.error e) :
    post_json app dbg ser s payload url = none :=
  post_json_eq_err app dbg ser s payload url e hser

/-- Witness for the amended C2 at the concrete failing serializer. -/
theorem post_json_ser_failure_aborts_witness :
    serFail () = Except.error "key must be a string" ∧
    post_json okApp dbgStr serFail () () "/api/users" = none :=
  ⟨rfl, post_json_ser_failure_aborts okApp dbgStr serFail () () "/api/users"
    "key must be a string" rfl⟩

/-- Claim C2 counterexample: at a concrete payload whose serialization fails,
post_json aborts (none) and does not return an Err (DispatchError) value to
the caller, contrary to the claim. -/
theorem post_json_ser_failure_not_err :
    post_json okApp dbgStr serFail () () "/api/users" = none ∧
    ¬ ∃ d, post_json okApp dbgStr serFail () () "/api/users" = some d ∧
      ∃ e, d.result = Except.error e := by
  constructor
  · exact post_json_eq_err okApp dbgStr serFail () () "/api/users"
      "key must be a string" rfl
  · rintro ⟨d, hd, -⟩
    rw [post_json_eq_err okApp dbgStr serFail () () "/api/users"
      "key must be a string" rfl] at hd
    cases hd

/-- Claim C7: against a stateless handler — a service whose behaviour is a pure
function f of the request and which leaves the handle state unchanged — two
consecutive identical dispatches yield identical results: equal RespBody
values with equal status and equal body. -/
theorem stateless_dispatch_idempotent {σ E α : Type} (app : Service σ E)
    (dbg : E → String) (ser : α → Except String (List Nat)) (s : σ) (payload : α)
    (gurl purl : String) (f : Request → Except E Response)
    (happ : ∀ st req, app.call st req = (f req, st)) :
    (get app dbg (get app dbg s gurl).state gurl).result = (get app dbg s gurl).result ∧
    (∀ d d', post_json app dbg ser s payload purl = some d →
      post_json app dbg ser d.state payload purl = some d' →
      d'.result = d.result) := by
  have hg : ∀ st : σ, (get app dbg st gurl).result =
      (match f (getRequest gurl) with
       | Except.ok resp => Except.ok ⟨resp.status, fromUtf8Lossy (read_body resp)⟩
       | Except.error err => Except.error ⟨"call_service_res failed: " ++ dbg err⟩) := by
    intro st
    rw [get_eq, happ st (getRequest gurl)]
    cases f (getRequest gurl) <;> rfl
  have hpj : ∀ st st' : σ,
      (post_json app dbg ser st payload purl).map Dispatched.result =
      (post_json app dbg ser st' payload purl).map Dispatched.result := by
    intro st st'
    cases hs : ser payload with
    | error e =>
      rw [post_json_eq_err app dbg ser st payload purl e hs,
        post_json_eq_err app dbg ser st' payload purl e hs]
    | ok bytes =>
      rw [post_json_eq_ok app dbg ser st payload purl bytes hs,
        post_json_eq_ok app dbg ser st' payload purl bytes hs,
        happ st (postRequest bytes purl), happ st' (postRequest bytes purl)]
      cases f (postRequest bytes purl) <;> rfl
  refine ⟨(hg _).trans (hg _).symm, ?_⟩
  intro d d' hd hd'
  have h := hpj s d.state
  rw [hd, hd'] at h
  simpa using h.symm

/-- Witness for C7: okApp is stateless and a repeated GET dispatch returns the
same result. -/
theorem stateless_dispatch_idempotent_witness :
    (∀ st req, okApp.call st req = (okHandler req, st)) ∧
    (get okApp dbgStr (get okApp dbgStr () "/x").state "/x").result =
      (get okApp dbgStr () "/x").result :=
  ⟨fun _ _ => rfl,
    (stateless_dispatch_idempotent okApp dbgStr serStr () "Filip" "/x" "/api/users"
      okHandler (fun _ _ => rfl)).1⟩

/-- Claim C10: get and post_json apply the identical response-capture
transformation — whenever the service outcomes of the two dispatches are equal
values, the two calls return equal results: equal RespBody values on
completion, and on call failure errors carrying the same diagnostic rendering
of the cause. -/
theorem get_post_json_capture_equivalent {σ τ E α : Type} (app : Service σ E)
    (app' : Service τ E) (dbg : E → String) (ser : α → Except String (List Nat))
    (payload : α) (bytes : List Nat) (s : σ) (t : τ) (gurl purl : String)
    (hser : ser payload = Except.ok bytes)
    (hout : (app.call s (getRequest gurl)).1 = (app'.call t (postRequest bytes purl)).1) :
    ∃ d, post_json app' dbg ser t payload purl = some d ∧
      (get app dbg s gurl).result = d.result := by
  have hpe := post_json_eq_ok app' dbg ser t payload purl bytes hser
  rw [get_eq]
  rcases hg : app.call s (getRequest gurl) with ⟨rg, sg⟩
  rcases hp : app'.call t (postRequest bytes purl) with ⟨rp, sp⟩
  rw [hg, hp] at hout
  have hr : rg = rp := hout
  subst hr
  rw [hp] at hpe
  cases rg <;> exact ⟨_, hpe, rfl⟩

/-- Witness for C10: both dispatches against okApp receive the same response
value and return the same result. -/
theorem get_post_json_capture_equivalent_witness :
    serStr "Filip" = Except.ok (utf8Encode "Filip") ∧
    (okApp.call () (getRequest "/x")).1 =
      (okApp.call () (postRequest (utf8Encode "Filip") "/api/users")).1 ∧
    (∃ d, post_json okApp dbgStr serStr () "Filip" "/api/users" = some d ∧
      (get okApp dbgStr () "/x").result = d.result) :=
  ⟨rfl, rfl, get_post_json_capture_equivalent okApp okApp dbgStr serStr "Filip"
    (utf8Encode "Filip") () () "/x" "/api/users" rfl rfl⟩

end Testax
